import Mathlib

/-!  Verification of `scripts/fetch_correlation_data.py`.

The script fetches daily price samples per asset, buckets timestamps to UTC
days, intersects per-asset day sets into a common timeline, and computes the
Pearson correlation of daily simple returns between the reference asset
(`nillion`) and each other asset.

Modelling choices, faithful to the Python source:
* prices are exact rationals; the real-valued Pearson coefficient lives in `ℝ`;
* a Python float expression that would be IEEE NaN is the distinguished
  outcome `PyFloat.nan` (exact arithmetic: `np.corrcoef` yields NaN exactly
  when a return vector has zero variance, a `0/0`);
* a Python `ZeroDivisionError` (plain float division by `0.0` raises in
  Python) is `Except.error PyError.zeroDivision`;
* file writes are recorded in a `WindowOutput` structure rather than performed.
-/

/-- A `{timestamp, price}` point as built by `fetch_price_data` (lines 63-69):
millisecond epoch timestamp and USD price. -/
structure PriceSample where
  timestamp : Nat
  price : ℚ
deriving DecidableEq, Repr

/-- Value of a Python float expression: an exact real value, or IEEE NaN. -/
inductive PyFloat where
  | num (x : ℝ)
  | nan

/-- The only Python exception this development needs to track. -/
inductive PyError where
  | zeroDivision
deriving DecidableEq, Repr

/-- Mean of a list of rationals (the population mean used by the covariance
normalisation inside `np.corrcoef`; the ratio in `np.corrcoef` is invariant
under the `ddof` convention, so the population form is exact). -/
def listMean (xs : List ℚ) : ℚ := xs.sum / xs.length

/-- Population covariance of two equal-length lists. -/
def covPop (xs ys : List ℚ) : ℚ :=
  (List.zipWith (fun x y => (x - listMean xs) * (y - listMean ys)) xs ys).sum / xs.length

/-- Population variance of a list. -/
def varPop (xs : List ℚ) : ℚ := covPop xs xs

/-- The daily simple returns computed by the loop at lines 99-103:
`r[i] = (p[i] - p[i-1]) / p[i-1]` for `i` in `[1, L)`. -/
def dailyReturns (p : List ℚ) : List ℚ :=
  List.zipWith (fun prev next => (next - prev) / prev) p p.tail

/-- Equals `true` iff some divisor `p[i-1]` used by the return loop is zero,
in which case Python raises `ZeroDivisionError` at lines 100-101. -/
def zeroPrev (p : List ℚ) : Bool := p.dropLast.any (fun x => x == 0)

/-- The `[0, 1]` entry of `np.corrcoef(returns1, returns2)` (line 106) in
exact arithmetic, following numpy's documented formula
`R[i,j] = C[i,j] / sqrt(C[i,i] * C[j,j])`: when a variance is zero the float
quotient is `0/0`, i.e. NaN; otherwise the Pearson coefficient. -/
noncomputable def np_corrcoef_01 (r1 r2 : List ℚ) : PyFloat :=
  if varPop r1 = 0 ∨ varPop r2 = 0 then .nan
  else .num ((covPop r1 r2 : ℝ) / Real.sqrt ((varPop r1 : ℝ) * (varPop r2 : ℝ)))

/-- The function `calculate_correlation` (lines 81-106): sentinel `0` when the
lengths differ or are below 2 (lines 92-93), a `ZeroDivisionError` when a
prior price used as a divisor is zero, otherwise `np.corrcoef` of the two
daily-return vectors. -/
noncomputable def calculate_correlation (prices1 prices2 : List ℚ) :
    Except PyError PyFloat :=
  if prices1.length ≠ prices2.length ∨ prices1.length < 2 then .ok (.num 0)
  else if zeroPrev prices1 || zeroPrev prices2 then .error .zeroDivision
  else .ok (np_corrcoef_01 (dailyReturns prices1) (dailyReturns prices2))

/-- Pearson correlation exactly as worded in the spec (section 4.2): the
population covariance of the two return vectors divided by the product of
their population standard deviations.  Defined from the spec's words only, to
be compared against `np_corrcoef_01`. -/
noncomputable def pearsonSpec (xs ys : List ℚ) : ℝ :=
  (covPop xs ys : ℝ) / (Real.sqrt (varPop xs : ℝ) * Real.sqrt (varPop ys : ℝ))

/-- Day bucketing `point['timestamp'] // 86400000 * 86400000` (lines 155, 165). -/
def dayBucket (t : Nat) : Nat := t / 86400000 * 86400000

/-- The dict `price_map` of one asset (lines 163-166) as a lookup function:
iterated assignment `price_map[bucket] = price` over the samples in order,
later samples overwriting earlier ones. -/
def priceMap (data : List PriceSample) : Nat → Option ℚ :=
  data.foldl (fun m s => fun b => if b = dayBucket s.timestamp then some s.price else m b)
    (fun _ => none)

/-- Every bucketed timestamp of every asset (lines 151-156), before the
`set`/`sorted` normalisation. -/
def allBuckets (td : List (String × List PriceSample)) : List Nat :=
  (td.map (fun kv => kv.2.map (fun s => dayBucket s.timestamp))).flatten

/-- The candidate timeline `sorted(timestamps)` (line 158): the set of all
buckets, enumerated in ascending order. -/
def candidateTimeline (td : List (String × List PriceSample)) : List Nat :=
  List.insertionSort (· ≤ ·) (allBuckets td).dedup

/-- The list `common_timestamps` (lines 179-182): candidate buckets present in
every asset's price map. -/
def commonTimeline (td : List (String × List PriceSample)) : List Nat :=
  (candidateTimeline td).filter (fun ts => td.all (fun kv => (priceMap kv.2 ts).isSome))

/-- The object `aligned_data` (lines 170-194).  `dates` keeps the day-bucket
millisecond timestamps; the source serialises each as the calendar date of
that instant. -/
structure AlignedDataset where
  dates : List Nat
  prices : List (String × List ℚ)
deriving DecidableEq, Repr

/-- One asset's entry of `aligned_data['prices']` (lines 189-194): the price
at each common bucket, in timeline order. -/
def alignedRow (td : List (String × List PriceSample)) (data : List PriceSample) : List ℚ :=
  (commonTimeline td).map (fun ts => (priceMap data ts).getD 0)

/-- The aligned dataset built at lines 170-194. -/
def alignedDataset (td : List (String × List PriceSample)) : AlignedDataset :=
  { dates := commonTimeline td
    prices := td.map (fun kv => (kv.1, alignedRow td kv.2)) }

/-- The fixed `TOKENS` table (lines 21-26). -/
def TOKENS : List (String × String) :=
  [("bitcoin", "BTC"), ("ethereum", "ETH"), ("nillion", "NIL"), ("mind-network", "MIND")]

/-- The key fragment `TOKENS[coin_id].lower()` (line 210); the source only
evaluates it at keys of `TOKENS`. -/
def symbolLower (coinId : String) : String := ((TOKENS.lookup coinId).getD "").toLower

/-- The function `fetch_price_data` (lines 34-79) as a function of the HTTP
outcome: a request or parsing error is caught at lines 74-79 and becomes `[]`
(never propagated to the caller); a successful response yields its samples. -/
def fetch_price_data (response : Except String (List PriceSample)) : List PriceSample :=
  match response with
  | .ok samples => samples
  | .error _ => []

/-- The dict `token_data` (lines 121-134): assets whose fetched list is
non-empty (`if price_data:`), in fetch order. -/
def tokenData (fetched : List (String × List PriceSample)) :
    List (String × List PriceSample) :=
  fetched.filter (fun kv => !kv.2.isEmpty)

/-- The list `failed_tokens` (lines 122, 136). -/
def failedTokens (fetched : List (String × List PriceSample)) : List String :=
  (fetched.filter (fun kv => kv.2.isEmpty)).map (fun kv => kv.1)

/-- Assets whose raw series file is written: the write happens inside the
fetch loop (lines 127-131), for exactly the successfully fetched assets. -/
def rawFiles (fetched : List (String × List PriceSample)) : List String :=
  (tokenData fetched).map (fun kv => kv.1)

/-- The correlation entries built by the loop at lines 205-211: one entry
`('nil_' + symbol, calculate_correlation(nil_prices, token_prices))` per
non-reference asset of `token_data`. -/
noncomputable def corrResults (td : List (String × List PriceSample)) :
    List (String × Except PyError PyFloat) :=
  (td.filter (fun kv => !(kv.1 == "nillion"))).map
    (fun kv => ("nil_" ++ symbolLower kv.1,
      calculate_correlation (((alignedDataset td).prices.lookup "nillion").getD [])
        (((alignedDataset td).prices.lookup kv.1).getD [])))

/-- Observable effects of one `save_data_for_timeframe` call: which raw files
were written, which assets failed, whether the aligned dataset and the
correlation file were written, and whether an uncaught exception escaped. -/
structure WindowOutput where
  rawSaved : List String
  failed : List String
  alignedSaved : Option AlignedDataset
  correlationsSaved : Option (List (String × PyFloat))
  crashed : Bool

/-- The function `save_data_for_timeframe` (lines 108-220) as a function of
the per-asset fetch results, recording which artifacts are written.  Raw
files are written inside the fetch loop, before the sufficiency checks at
lines 140-146.  `crashed = true` models an uncaught `ZeroDivisionError`
escaping `calculate_correlation` during the correlation loop, in which case
the correlation file is never written. -/
noncomputable def save_data_for_timeframe (fetched : List (String × List PriceSample)) :
    WindowOutput :=
  if (tokenData fetched).length < 2 then
    ⟨rawFiles fetched, failedTokens fetched, none, none, false⟩
  else if "nillion" ∉ (tokenData fetched).map (fun kv => kv.1) then
    ⟨rawFiles fetched, failedTokens fetched, none, none, false⟩
  else if commonTimeline (tokenData fetched) = [] then
    ⟨rawFiles fetched, failedTokens fetched, none, none, false⟩
  else if "nillion" ∈ (alignedDataset (tokenData fetched)).prices.map (fun kv => kv.1) ∧
      1 < (alignedDataset (tokenData fetched)).dates.length then
    if (corrResults (tokenData fetched)).all (fun r => r.2.toOption.isSome) then
      ⟨rawFiles fetched, failedTokens fetched, some (alignedDataset (tokenData fetched)),
        some ((corrResults (tokenData fetched)).filterMap
          (fun r => r.2.toOption.map (fun v => (r.1, v)))), false⟩
    else
      ⟨rawFiles fetched, failedTokens fetched, some (alignedDataset (tokenData fetched)),
        none, true⟩
  else
    ⟨rawFiles fetched, failedTokens fetched, some (alignedDataset (tokenData fetched)),
      none, false⟩

theorem sum_zipWith_eq_sum_range (f : ℚ → ℚ → ℚ) (xs : List ℚ) :
    ∀ ys : List ℚ, xs.length = ys.length →
      (List.zipWith f xs ys).sum =
        ∑ i ∈ Finset.range xs.length, f (xs.getD i 0) (ys.getD i 0) := by
  induction xs with
  | nil => intro ys h; simp
  | cons x xs ih =>
    intro ys h
    cases ys with
    | nil => simp at h
    | cons y ys =>
      have h' : xs.length = ys.length := by simpa using h
      simp only [List.zipWith_cons_cons, List.sum_cons, List.length_cons]
      rw [Finset.sum_range_succ', ih ys h']
      simp [add_comm]

theorem covPop_eq_sum (xs ys : List ℚ) (h : xs.length = ys.length) :
    covPop xs ys =
      (∑ i ∈ Finset.range xs.length,
        (xs.getD i 0 - listMean xs) * (ys.getD i 0 - listMean ys)) / xs.length := by
  rw [covPop, sum_zipWith_eq_sum_range _ xs ys h]

theorem varPop_eq_sum (xs : List ℚ) :
    varPop xs =
      (∑ i ∈ Finset.range xs.length, (xs.getD i 0 - listMean xs) ^ 2) / xs.length := by
  rw [varPop, covPop_eq_sum xs xs rfl]
  congr 1
  exact Finset.sum_congr rfl fun i _ => (pow_two _).symm

theorem varPop_nonneg (xs : List ℚ) : 0 ≤ varPop xs := by
  rw [varPop_eq_sum]
  exact div_nonneg (Finset.sum_nonneg fun i _ => sq_nonneg _) (Nat.cast_nonneg _)

theorem covPop_sq_le (xs ys : List ℚ) (h : xs.length = ys.length) :
    covPop xs ys ^ 2 ≤ varPop xs * varPop ys := by
  rcases Nat.eq_zero_or_pos xs.length with h0 | hpos
  · have h0' : ys.length = 0 := by omega
    simp [covPop_eq_sum xs ys h, varPop_eq_sum, h0, h0']
  · have hn : (0 : ℚ) < (xs.length : ℚ) := by exact_mod_cast hpos
    rw [covPop_eq_sum xs ys h, varPop_eq_sum xs, varPop_eq_sum ys, ← h, div_pow,
      div_mul_div_comm, pow_two ((xs.length : ℚ))]
    exact (div_le_div_iff_of_pos_right (mul_pos hn hn)).mpr
      (Finset.sum_mul_sq_le_sq_mul_sq _ _ _)

theorem covPop_comm (xs ys : List ℚ) (h : xs.length = ys.length) :
    covPop xs ys = covPop ys xs := by
  rw [covPop, covPop]
  congr 1
  · have hfe : (fun b a => (a - listMean xs) * (b - listMean ys)) =
        (fun x y => (x - listMean ys) * (y - listMean xs)) := by
      funext b a
      ring
    rw [List.zipWith_comm, hfe]
  · exact_mod_cast congrArg Nat.cast h

theorem dailyReturns_length (p : List ℚ) : (dailyReturns p).length = p.length - 1 := by
  simp [dailyReturns]

theorem dailyReturns_getD (p : List ℚ) (i : Nat) (hi : i + 1 < p.length) :
    (dailyReturns p).getD i 0 = (p.getD (i + 1) 0 - p.getD i 0) / p.getD i 0 := by
  have h1 : i < (dailyReturns p).length := by rw [dailyReturns_length]; omega
  have h2 : i < p.length := by omega
  rw [List.getD_eq_getElem _ _ h1, List.getD_eq_getElem _ _ h2, List.getD_eq_getElem _ _ hi]
  show (List.zipWith _ p p.tail)[i] = _
  rw [List.getElem_zipWith, List.getElem_tail]

theorem zeroPrev_eq_false (p : List ℚ) (h : ∀ x ∈ p, x ≠ 0) : zeroPrev p = false := by
  rw [zeroPrev, List.any_eq_false]
  intro x hx
  simp only [beq_iff_eq]
  exact h x (List.dropLast_subset p hx)

theorem np_corrcoef_01_eq_pearsonSpec (r1 r2 : List ℚ)
    (h1 : varPop r1 ≠ 0) (h2 : varPop r2 ≠ 0) :
    np_corrcoef_01 r1 r2 = .num (pearsonSpec r1 r2) := by
  rw [np_corrcoef_01, if_neg (by tauto), pearsonSpec,
    Real.sqrt_mul (by exact_mod_cast varPop_nonneg r1)]

theorem np_corrcoef_01_self (r : List ℚ) (hv : varPop r ≠ 0) :
    np_corrcoef_01 r r = .num 1 := by
  rw [np_corrcoef_01, if_neg (by tauto)]
  have h0 : (0 : ℝ) ≤ (varPop r : ℝ) := by exact_mod_cast varPop_nonneg r
  have hne : (varPop r : ℝ) ≠ 0 := by exact_mod_cast hv
  rw [show ((covPop r r : ℚ)) = varPop r from rfl, Real.sqrt_mul_self h0, div_self hne]

theorem np_corrcoef_01_comm (r1 r2 : List ℚ) (h : r1.length = r2.length) :
    np_corrcoef_01 r1 r2 = np_corrcoef_01 r2 r1 := by
  rw [np_corrcoef_01, np_corrcoef_01, covPop_comm r1 r2 h]
  exact if_congr or_comm rfl (by rw [mul_comm])

theorem abs_pearsonSpec_le_one (xs ys : List ℚ) (h : xs.length = ys.length)
    (h1 : varPop xs ≠ 0) (h2 : varPop ys ≠ 0) :
    |pearsonSpec xs ys| ≤ 1 := by
  have hv1 : (0 : ℝ) < (varPop xs : ℝ) := by
    have hle : (0 : ℝ) ≤ (varPop xs : ℝ) := by exact_mod_cast varPop_nonneg xs
    exact lt_of_le_of_ne hle (by exact_mod_cast (Ne.symm h1))
  have hv2 : (0 : ℝ) < (varPop ys : ℝ) := by
    have hle : (0 : ℝ) ≤ (varPop ys : ℝ) := by exact_mod_cast varPop_nonneg ys
    exact lt_of_le_of_ne hle (by exact_mod_cast (Ne.symm h2))
  have hs1 : 0 < Real.sqrt (varPop xs : ℝ) := Real.sqrt_pos.mpr hv1
  have hs2 : 0 < Real.sqrt (varPop ys : ℝ) := Real.sqrt_pos.mpr hv2
  have hcs : ((covPop xs ys : ℝ)) ^ 2 ≤ (varPop xs : ℝ) * (varPop ys : ℝ) := by
    exact_mod_cast covPop_sq_le xs ys h
  have habs : |(covPop xs ys : ℝ)| ≤
      Real.sqrt (varPop xs : ℝ) * Real.sqrt (varPop ys : ℝ) := by
    rw [← Real.sqrt_sq_eq_abs, ← Real.sqrt_mul hv1.le]
    exact Real.sqrt_le_sqrt hcs
  rw [pearsonSpec, abs_div, abs_of_pos (mul_pos hs1 hs2)]
  exact div_le_one_of_le₀ habs (mul_pos hs1 hs2).le

theorem priceMap_append (d : List PriceSample) (s : PriceSample) (b : Nat) :
    priceMap (d ++ [s]) b =
      if b = dayBucket s.timestamp then some s.price else priceMap d b := by
  simp [priceMap, List.foldl_append]

theorem priceMap_isSome_iff (d : List PriceSample) (b : Nat) :
    (priceMap d b).isSome = true ↔ ∃ s ∈ d, dayBucket s.timestamp = b := by
  induction d using List.reverseRecOn with
  | nil => simp [priceMap]
  | append_singleton d s ih =>
    rw [priceMap_append]
    by_cases hb : b = dayBucket s.timestamp
    · simp only [if_pos hb, Option.isSome_some, true_iff]
      exact ⟨s, by simp, hb.symm⟩
    · rw [if_neg hb]
      rw [ih]
      constructor
      · rintro ⟨t, ht, hbt⟩
        exact ⟨t, by simp [ht], hbt⟩
      · rintro ⟨t, ht, hbt⟩
        rcases List.mem_append.mp ht with h | h
        · exact ⟨t, h, hbt⟩
        · rw [List.mem_singleton.mp h] at hbt
          exact absurd hbt.symm hb

theorem mem_allBuckets (td : List (String × List PriceSample)) (b : Nat) :
    b ∈ allBuckets td ↔ ∃ kv ∈ td, ∃ s ∈ kv.2, dayBucket s.timestamp = b := by
  constructor
  · intro hb
    rw [allBuckets, List.mem_flatten] at hb
    obtain ⟨l, hl, hbl⟩ := hb
    obtain ⟨kv, hkv, rfl⟩ := List.mem_map.mp hl
    obtain ⟨s, hs, rfl⟩ := List.mem_map.mp hbl
    exact ⟨kv, hkv, s, hs, rfl⟩
  · rintro ⟨kv, hkv, s, hs, rfl⟩
    rw [allBuckets, List.mem_flatten]
    exact ⟨_, List.mem_map.mpr ⟨kv, hkv, rfl⟩, List.mem_map.mpr ⟨s, hs, rfl⟩⟩

theorem mem_candidateTimeline (td : List (String × List PriceSample)) (b : Nat) :
    b ∈ candidateTimeline td ↔ b ∈ allBuckets td := by
  rw [candidateTimeline, (List.perm_insertionSort _ _).mem_iff, List.mem_dedup]

theorem mem_commonTimeline (td : List (String × List PriceSample)) (b : Nat) :
    b ∈ commonTimeline td ↔
      (td ≠ [] ∧ ∀ kv ∈ td, (priceMap kv.2 b).isSome = true) := by
  rw [commonTimeline, List.mem_filter]
  constructor
  · rintro ⟨hc, hall⟩
    rw [List.all_eq_true] at hall
    refine ⟨?_, fun kv hkv => hall kv hkv⟩
    obtain ⟨kv, hkv, -⟩ := (mem_allBuckets td b).mp ((mem_candidateTimeline td b).mp hc)
    exact List.ne_nil_of_mem hkv
  · rintro ⟨hne, hall⟩
    refine ⟨?_, List.all_eq_true.mpr fun kv hkv => hall kv hkv⟩
    obtain ⟨kv, hkv⟩ := List.exists_mem_of_ne_nil td hne
    obtain ⟨s, hs, hsb⟩ := (priceMap_isSome_iff kv.2 b).mp (hall kv hkv)
    exact (mem_candidateTimeline td b).mpr ((mem_allBuckets td b).mpr ⟨kv, hkv, s, hs, hsb⟩)

theorem commonTimeline_sorted (td : List (String × List PriceSample)) :
    (commonTimeline td).Sorted (· < ·) := by
  have hs : (candidateTimeline td).Sorted (· ≤ ·) := List.sorted_insertionSort _ _
  have hn : (candidateTimeline td).Nodup :=
    ((List.perm_insertionSort _ _).nodup_iff).mpr (List.nodup_dedup _)
  have hlt : (candidateTimeline td).Sorted (· < ·) :=
    (hs.and hn).imp fun h => lt_of_le_of_ne h.1 h.2
  exact hlt.filter _

/-- C1: for equal-length price vectors of length at least 2 with nonzero
entries, `calculate_correlation` computes the two simple-return vectors of
length L-1 via `r[i] = (p[i] - p[i-1]) / p[i-1]` and returns `np.corrcoef` of
them, which under nonzero variances equals the spec's Pearson coefficient
(population covariance over product of population standard deviations) and
lies in [-1, 1]. -/
theorem calculate_correlation_is_pearson (p1 p2 : List ℚ)
    (hlen : p1.length = p2.length) (hL : 2 ≤ p1.length)
    (h1 : ∀ x ∈ p1, x ≠ 0) (h2 : ∀ x ∈ p2, x ≠ 0) :
    (dailyReturns p1).length = p1.length - 1 ∧
    (dailyReturns p2).length = p2.length - 1 ∧
    (∀ i, i + 1 < p1.length →
      (dailyReturns p1).getD i 0 = (p1.getD (i + 1) 0 - p1.getD i 0) / p1.getD i 0) ∧
    (∀ i, i + 1 < p2.length →
      (dailyReturns p2).getD i 0 = (p2.getD (i + 1) 0 - p2.getD i 0) / p2.getD i 0) ∧
    calculate_correlation p1 p2 =
      .ok (np_corrcoef_01 (dailyReturns p1) (dailyReturns p2)) ∧
    (varPop (dailyReturns p1) ≠ 0 → varPop (dailyReturns p2) ≠ 0 →
      np_corrcoef_01 (dailyReturns p1) (dailyReturns p2) =
        .num (pearsonSpec (dailyReturns p1) (dailyReturns p2)) ∧
      -1 ≤ pearsonSpec (dailyReturns p1) (dailyReturns p2) ∧
      pearsonSpec (dailyReturns p1) (dailyReturns p2) ≤ 1) := by
  refine ⟨dailyReturns_length p1, dailyReturns_length p2,
    fun i hi => dailyReturns_getD p1 i hi, fun i hi => dailyReturns_getD p2 i hi, ?_, ?_⟩
  · rw [calculate_correlation, if_neg (by omega),
      if_neg (by simp [zeroPrev_eq_false p1 h1, zeroPrev_eq_false p2 h2])]
  · intro hv1 hv2
    have hrl : (dailyReturns p1).length = (dailyReturns p2).length := by
      rw [dailyReturns_length, dailyReturns_length, hlen]
    exact ⟨np_corrcoef_01_eq_pearsonSpec _ _ hv1 hv2,
      abs_le.mp (abs_pearsonSpec_le_one _ _ hrl hv1 hv2)⟩

theorem calculate_correlation_is_pearson_witness :
    calculate_correlation [1, 2, 3] [1, 3, 4] =
      .ok (np_corrcoef_01 (dailyReturns [1, 2, 3]) (dailyReturns [1, 3, 4])) ∧
    -1 ≤ pearsonSpec (dailyReturns [1, 2, 3]) (dailyReturns [1, 3, 4]) ∧
    pearsonSpec (dailyReturns [1, 2, 3]) (dailyReturns [1, 3, 4]) ≤ 1 := by
  have h := calculate_correlation_is_pearson [1, 2, 3] [1, 3, 4] (by decide) (by decide)
    (by decide) (by decide)
  have h6 := h.2.2.2.2.2 (by norm_num [varPop, covPop, listMean, dailyReturns])
    (by norm_num [varPop, covPop, listMean, dailyReturns])
  exact ⟨h.2.2.2.2.1, h6.2⟩

/-- C2: the common timeline is strictly ascending and contains exactly the
buckets present in every asset's price map; on the spec's example (asset A
with days {0, 1, 2}, asset B with days {1, 2, 3}) it is exactly days {1, 2}
in ascending order. -/
theorem common_timeline_is_intersection :
    (∀ td, (commonTimeline td).Sorted (· < ·)) ∧
    (∀ td (b : Nat), b ∈ commonTimeline td ↔
      (td ≠ [] ∧ ∀ kv ∈ td, (priceMap kv.2 b).isSome = true)) ∧
    commonTimeline
        [("A", [⟨0, 1⟩, ⟨86400000, 2⟩, ⟨172800000, 3⟩]),
         ("B", [⟨86400000, 4⟩, ⟨172800000, 5⟩, ⟨259200000, 6⟩])] =
      [86400000, 172800000] :=
  ⟨commonTimeline_sorted, mem_commonTimeline, by decide⟩

theorem common_timeline_is_intersection_witness :
    86400000 ∈ commonTimeline
      [("A", [⟨0, 1⟩, ⟨86400000, 2⟩, ⟨172800000, 3⟩]),
       ("B", [⟨86400000, 4⟩, ⟨172800000, 5⟩, ⟨259200000, 6⟩])] :=
  (common_timeline_is_intersection.2.1 _ 86400000).mpr ⟨by decide, by decide⟩

/-- C3: on vectors of different lengths, or of common length below 2,
`calculate_correlation` returns the sentinel `0` and raises nothing. -/
theorem calculate_correlation_sentinel (p1 p2 : List ℚ)
    (h : p1.length ≠ p2.length ∨ p1.length < 2) :
    calculate_correlation p1 p2 = .ok (.num 0) := by
  rw [calculate_correlation, if_pos h]

theorem calculate_correlation_sentinel_witness :
    calculate_correlation [1] [1, 2] = .ok (.num 0) :=
  calculate_correlation_sentinel [1] [1, 2] (by decide)

/-- C4 counterexample: a zero prior price makes `calculate_correlation` raise
`ZeroDivisionError` (Python float division by zero raises), contradicting the
claim that it never raises on equal-length vectors of length at least 2. -/
theorem calculate_correlation_raises_on_zero_price :
    calculate_correlation [0, 1] [1, 2] = .error .zeroDivision := by
  rw [calculate_correlation, if_neg (by decide), if_pos (by decide)]

/-- C4 (amended): when every prior price (all entries but the last) of both
vectors is nonzero, `calculate_correlation` completes with an `ok` value for
any input lengths; in particular zero-variance returns yield the NaN value,
not an error.  With a zero prior price it instead raises `ZeroDivisionError`. -/
theorem calculate_correlation_total_of_nonzero_prev (p1 p2 : List ℚ)
    (hz1 : zeroPrev p1 = false) (hz2 : zeroPrev p2 = false) :
    (∃ v, calculate_correlation p1 p2 = .ok v) ∧
    (p1.length = p2.length → 2 ≤ p1.length →
      (varPop (dailyReturns p1) = 0 ∨ varPop (dailyReturns p2) = 0) →
      calculate_correlation p1 p2 = .ok .nan) := by
  constructor
  · by_cases hg : p1.length ≠ p2.length ∨ p1.length < 2
    · exact ⟨.num 0, by rw [calculate_correlation, if_pos hg]⟩
    · exact ⟨np_corrcoef_01 (dailyReturns p1) (dailyReturns p2),
        by rw [calculate_correlation, if_neg hg, if_neg (by simp [hz1, hz2])]⟩
  · intro hlen hL hv
    rw [calculate_correlation, if_neg (by omega), if_neg (by simp [hz1, hz2]),
      np_corrcoef_01, if_pos hv]

theorem calculate_correlation_total_of_nonzero_prev_witness :
    calculate_correlation [1, 1] [1, 2] = .ok .nan ∧
    (∃ v, calculate_correlation [1, 1] [1, 2] = .ok v) := by
  have h := calculate_correlation_total_of_nonzero_prev [1, 1] [1, 2] (by decide) (by decide)
  exact ⟨h.2 (by decide) (by decide)
    (Or.inl (by norm_num [varPop, covPop, listMean, dailyReturns])), h.1⟩

/-- C5: bucketing maps a timestamp `t` to `t - (t mod 86400000)`, and the
price map records, per bucket, the price of the sample appearing latest in
the source sequence (an appended sample overwrites any earlier sample of the
same bucket); concretely, of two same-day samples the second wins. -/
theorem bucketing_last_write_wins :
    (∀ t : Nat, dayBucket t = t - t % 86400000) ∧
    (∀ (d : List PriceSample) (s : PriceSample) (b : Nat),
      priceMap (d ++ [s]) b =
        if b = dayBucket s.timestamp then some s.price else priceMap d b) ∧
    priceMap [⟨10, 1⟩, ⟨20, 2⟩] 0 = some 2 :=
  ⟨fun t => by unfold dayBucket; omega, priceMap_append, by decide⟩

/-- C6: in the aligned dataset, every asset of the input keeps one price row,
each row has the same length as `dates`, and the price at position i is
exactly the asset's bucketed price at the bucket `dates[i]`. -/
theorem aligned_dataset_invariant (td : List (String × List PriceSample)) :
    (alignedDataset td).prices.length = td.length ∧
    ∀ kv, kv ∈ td →
      (kv.1, alignedRow td kv.2) ∈ (alignedDataset td).prices ∧
      (alignedRow td kv.2).length = (alignedDataset td).dates.length ∧
      ∀ i, i < (alignedDataset td).dates.length →
        priceMap kv.2 ((alignedDataset td).dates.getD i 0) =
          some ((alignedRow td kv.2).getD i 0) := by
  refine ⟨by simp [alignedDataset], fun kv hkv => ⟨?_, ?_, ?_⟩⟩
  · exact List.mem_map.mpr ⟨kv, hkv, rfl⟩
  · simp [alignedRow, alignedDataset]
  · intro i hi
    have hi' : i < (commonTimeline td).length := hi
    have hmem : (commonTimeline td).getD i 0 ∈ commonTimeline td := by
      rw [List.getD_eq_getElem _ _ hi']
      exact List.getElem_mem hi'
    obtain ⟨-, hall⟩ := (mem_commonTimeline td _).mp hmem
    have hsome := hall kv hkv
    have hrow : (alignedRow td kv.2).getD i 0 =
        (priceMap kv.2 ((commonTimeline td).getD i 0)).getD 0 := by
      rw [alignedRow, List.getD_eq_getElem _ _ (by simpa [alignedRow] using hi'),
        List.getElem_map, List.getD_eq_getElem _ _ hi']
    show priceMap kv.2 ((commonTimeline td).getD i 0) = _
    rw [hrow]
    obtain ⟨v, hv⟩ := Option.isSome_iff_exists.mp hsome
    rw [hv]
    rfl

theorem aligned_dataset_invariant_witness :
    priceMap [⟨0, 5⟩] ((alignedDataset [("bitcoin", [⟨0, 5⟩])]).dates.getD 0 0) =
      some ((alignedRow [("bitcoin", [⟨0, 5⟩])] [⟨0, 5⟩]).getD 0 0) :=
  ((aligned_dataset_invariant [("bitcoin", [⟨0, 5⟩])]).2 ("bitcoin", [⟨0, 5⟩])
    (by decide)).2.2 0 (by decide)

/-- C7 counterexample: the prices [1, 2, 4] are nonzero and non-repeating,
yet their returns [1, 1] have zero variance, so the self-correlation is NaN,
not approximately 1. -/
theorem self_correlation_nan_counterexample :
    calculate_correlation [1, 2, 4] [1, 2, 4] = .ok .nan ∧
    PyFloat.nan ≠ PyFloat.num 1 := by
  refine ⟨?_, by simp⟩
  rw [calculate_correlation, if_neg (by decide), if_neg (by decide), np_corrcoef_01,
    if_pos (Or.inl (by norm_num [varPop, covPop, listMean, dailyReturns]))]

/-- C7 (amended): `calculate_correlation` is symmetric on all inputs, and the
self-correlation is exactly the value 1 whenever additionally the return
vector has nonzero variance (nonzero, non-repeating prices alone do not
guarantee that). -/
theorem correlation_symm_and_self (p1 p2 : List ℚ) :
    calculate_correlation p1 p2 = calculate_correlation p2 p1 ∧
    (2 ≤ p1.length → (∀ x ∈ p1, x ≠ 0) → varPop (dailyReturns p1) ≠ 0 →
      calculate_correlation p1 p1 = .ok (.num 1)) := by
  constructor
  · by_cases hlen : p1.length = p2.length
    · by_cases hL : p1.length < 2
      · rw [calculate_correlation, calculate_correlation, if_pos (Or.inr hL),
          if_pos (Or.inr (hlen ▸ hL))]
      · have g1 : ¬(p1.length ≠ p2.length ∨ p1.length < 2) := by omega
        have g2 : ¬(p2.length ≠ p1.length ∨ p2.length < 2) := by omega
        rw [calculate_correlation, calculate_correlation, if_neg g1, if_neg g2]
        by_cases hz : (zeroPrev p1 || zeroPrev p2) = true
        · rw [if_pos hz, if_pos (by rw [Bool.or_comm] at hz; exact hz)]
        · rw [if_neg hz, if_neg (by rw [Bool.or_comm] at hz; exact hz)]
          have hrl : (dailyReturns p1).length = (dailyReturns p2).length := by
            rw [dailyReturns_length, dailyReturns_length, hlen]
          rw [np_corrcoef_01_comm _ _ hrl]
    · rw [calculate_correlation, calculate_correlation, if_pos (Or.inl hlen),
        if_pos (Or.inl (Ne.symm hlen))]
  · intro hL h0 hv
    rw [calculate_correlation, if_neg (by omega),
      if_neg (by simp [zeroPrev_eq_false p1 h0]), np_corrcoef_01_self _ hv]

theorem correlation_symm_and_self_witness :
    calculate_correlation [1, 2, 3] [1, 2, 3] = .ok (.num 1) :=
  (correlation_symm_and_self [1, 2, 3] [1, 2, 3]).2 (by decide) (by decide)
    (by norm_num [varPop, covPop, listMean, dailyReturns])

/-- C8 (amended): when fewer than 2 assets succeeded or the reference asset
is missing, neither the aligned dataset nor any correlation file is written
and the window ends without crashing; the raw series files of the successful
assets, however, have already been written inside the fetch loop. -/
theorem insufficient_data_skips_window (fetched : List (String × List PriceSample))
    (h : (tokenData fetched).length < 2 ∨
      "nillion" ∉ (tokenData fetched).map (fun kv => kv.1)) :
    (save_data_for_timeframe fetched).alignedSaved = none ∧
    (save_data_for_timeframe fetched).correlationsSaved = none ∧
    (save_data_for_timeframe fetched).crashed = false ∧
    (save_data_for_timeframe fetched).rawSaved = rawFiles fetched := by
  rcases h with h | h
  · rw [save_data_for_timeframe, if_pos h]
    exact ⟨rfl, rfl, rfl, rfl⟩
  · by_cases h2 : (tokenData fetched).length < 2
    · rw [save_data_for_timeframe, if_pos h2]
      exact ⟨rfl, rfl, rfl, rfl⟩
    · rw [save_data_for_timeframe, if_neg h2, if_pos h]
      exact ⟨rfl, rfl, rfl, rfl⟩

theorem insufficient_data_skips_window_witness :
    (save_data_for_timeframe [("bitcoin", [⟨0, 5⟩]), ("ethereum", [])]).alignedSaved =
      none ∧
    (save_data_for_timeframe [("bitcoin", [⟨0, 5⟩]), ("ethereum", [])]).rawSaved =
      rawFiles [("bitcoin", [⟨0, 5⟩]), ("ethereum", [])] := by
  have h := insufficient_data_skips_window [("bitcoin", [⟨0, 5⟩]), ("ethereum", [])]
    (Or.inl (by decide))
  exact ⟨h.1, h.2.2.2⟩

/-- C8 counterexample: with one successful and one failed asset the
sufficiency checks fail and no aligned or correlation file is written, yet
the successful asset's raw series file has been written — refuting the claim
that no raw series file is written in that case. -/
theorem raw_saved_despite_insufficient_data :
    (save_data_for_timeframe [("bitcoin", [⟨0, 5⟩]), ("ethereum", [])]).rawSaved =
      ["bitcoin"] ∧
    (save_data_for_timeframe [("bitcoin", [⟨0, 5⟩]), ("ethereum", [])]).alignedSaved =
      none ∧
    (save_data_for_timeframe [("bitcoin", [⟨0, 5⟩]), ("ethereum", [])]).correlationsSaved =
      none :=
  ⟨rfl, rfl, rfl⟩

/-- C9: when the sufficiency checks pass but the common timeline has exactly
one day bucket, the aligned dataset is persisted while the correlation step
is skipped entirely (no correlation entries, no correlation file, no crash). -/
theorem single_common_date_skips_correlation (fetched : List (String × List PriceSample))
    (h2 : 2 ≤ (tokenData fetched).length)
    (hn : "nillion" ∈ (tokenData fetched).map (fun kv => kv.1))
    (h1 : (commonTimeline (tokenData fetched)).length = 1) :
    (save_data_for_timeframe fetched).alignedSaved =
      some (alignedDataset (tokenData fetched)) ∧
    (save_data_for_timeframe fetched).correlationsSaved = none ∧
    (save_data_for_timeframe fetched).crashed = false := by
  have hne : commonTimeline (tokenData fetched) ≠ [] := by
    intro hc
    rw [hc] at h1
    simp at h1
  rw [save_data_for_timeframe, if_neg (by omega), if_neg (not_not_intro hn), if_neg hne,
    if_neg ?_]
  · exact ⟨rfl, rfl, rfl⟩
  · rintro ⟨-, hlen⟩
    have hd : (alignedDataset (tokenData fetched)).dates =
        commonTimeline (tokenData fetched) := rfl
    rw [hd, h1] at hlen
    exact absurd hlen (by omega)

theorem single_common_date_skips_correlation_witness :
    (save_data_for_timeframe [("nillion", [⟨0, 1⟩]), ("bitcoin", [⟨0, 2⟩])]).alignedSaved =
      some (alignedDataset (tokenData [("nillion", [⟨0, 1⟩]), ("bitcoin", [⟨0, 2⟩])])) ∧
    (save_data_for_timeframe
      [("nillion", [⟨0, 1⟩]), ("bitcoin", [⟨0, 2⟩])]).correlationsSaved = none ∧
    (save_data_for_timeframe [("nillion", [⟨0, 1⟩]), ("bitcoin", [⟨0, 2⟩])]).crashed =
      false :=
  single_common_date_skips_correlation _ (by decide) (by decide) (by decide)

/-- C10: an asset with an empty fetched list (a caught request error becomes
`[]`, as does an empty successful response) is recorded as failed, gets no
raw file, is absent from the alignment input `token_data` and from the
correlation loop's domain; every series handed to alignment is non-empty. -/
theorem empty_fetch_excluded :
    (∀ e : String, fetch_price_data (.error e) = []) ∧
    (∀ (fetched : List (String × List PriceSample)) kv,
      kv ∈ tokenData fetched → kv.2 ≠ []) ∧
    (∀ (fetched : List (String × List PriceSample)) kv,
      (fetched.map (fun kv => kv.1)).Nodup → kv ∈ fetched → kv.2 = [] →
      kv.1 ∈ failedTokens fetched ∧
      kv.1 ∉ rawFiles fetched ∧
      kv.1 ∉ (tokenData fetched).map (fun kv => kv.1) ∧
      kv.1 ∉ ((tokenData fetched).filter (fun kv => !(kv.1 == "nillion"))).map
        (fun kv => kv.1)) := by
  refine ⟨fun e => rfl, ?_, ?_⟩
  · intro fetched kv hkv
    have h := (List.mem_filter.mp hkv).2
    simpa using h
  · intro fetched kv hnd hkv hempty
    have hnotin : kv.1 ∉ (tokenData fetched).map (fun kv => kv.1) := by
      intro hmem
      obtain ⟨kv', hkv', hfst⟩ := List.mem_map.mp hmem
      have hkv'f : kv' ∈ fetched := (List.mem_filter.mp hkv').1
      have hkv'ne : kv'.2 ≠ [] := by
        have h := (List.mem_filter.mp hkv').2
        simpa using h
      have heq : kv' = kv := List.inj_on_of_nodup_map hnd hkv'f hkv hfst
      exact hkv'ne (heq ▸ hempty)
    refine ⟨?_, by simpa [rawFiles] using hnotin, hnotin, ?_⟩
    · refine List.mem_map.mpr ⟨kv, ?_, rfl⟩
      exact List.mem_filter.mpr ⟨hkv, by simp [hempty]⟩
    · intro hmem
      obtain ⟨kv', hkv', hfst⟩ := List.mem_map.mp hmem
      exact hnotin (List.mem_map.mpr ⟨kv', (List.mem_filter.mp hkv').1, hfst⟩)

theorem empty_fetch_excluded_witness :
    ("bitcoin" ∈ failedTokens [("bitcoin", []), ("nillion", [⟨0, 1⟩])]) ∧
    ("bitcoin" ∉ rawFiles [("bitcoin", []), ("nillion", [⟨0, 1⟩])]) := by
  have h := empty_fetch_excluded.2.2 [("bitcoin", []), ("nillion", [⟨0, 1⟩])]
    ("bitcoin", []) (by decide) (by decide) rfl
  exact ⟨h.1, h.2.1⟩
